import Mathlib

/-!
Verification of the prepare subsystem (`src/plugins/prepare.rs`).

The source is embedded under the crate's `2d` feature.  The `Scalar` type
(`f32`) is idealized as follows:

* the defaulting and mass-aggregation passes use exact rationals `ℚ`, plus an
  explicit `XScalar` type with positive/negative infinity so that the IEEE
  quotient `1.0 / 0.0 = +inf` appearing on the inverse-mass/inverse-inertia
  paths is represented faithfully;
* the bounding-volume pass uses `ℝ`, since it involves the Euclidean norm of a
  velocity vector.

Code belonging to this repository that is not part of `prepare.rs` (component
`Default` impls, the `MassPropsQueryItem` add/sub-assign operators, shape mass
computation) is modelled from the spec; every such definition carries a doc
comment saying so.
-/

namespace Prepare

/-- Machine epsilon floor used by the clamping code; `Scalar::EPSILON` for
`f32` is `2 ^ (-23)`. -/
def EPSILON : ℚ := 1 / 2 ^ 23

/-- Abstract shape descriptor; the concrete shape type lives outside the
embedded source, so shapes are opaque identifiers. -/
abbrev Shape := ℚ

/-- Scalar that can hold the result of IEEE division by zero: either a finite
value or one of the two infinities. -/
inductive XScalar where
  | fin (q : ℚ)
  | pinf
  | ninf
deriving DecidableEq

/-- IEEE quotient `1.0 / m` for a represented-exactly finite `m`: division by
(positive) zero yields `+inf`, as in `f32`. -/
def oneDiv (m : ℚ) : XScalar :=
  if m = 0 then XScalar.pinf else XScalar.fin (1 / m)

/-- IEEE comparison `a < b` extended to the infinities (used by the epsilon
clamp, whose right operand is always finite). -/
def XScalar.blt : XScalar → XScalar → Bool
  | XScalar.ninf, XScalar.ninf => false
  | XScalar.ninf, _ => true
  | XScalar.fin _, XScalar.ninf => false
  | XScalar.fin a, XScalar.fin b => decide (a < b)
  | XScalar.fin _, XScalar.pinf => true
  | XScalar.pinf, _ => false

/-- Whether an `XScalar` is a finite value. -/
def XScalar.isFinite : XScalar → Bool
  | XScalar.fin _ => true
  | _ => false

/-- Planar vector (`Vector` under the `2d` feature), exact components. -/
structure Vec2 where
  x : ℚ
  y : ℚ
deriving DecidableEq

/-- The zero vector `Vector::ZERO`. -/
def Vec2.zero : Vec2 := ⟨0, 0⟩

/-- Three-component vector for the generic transform's translation. -/
structure Vec3 where
  x : ℚ
  y : ℚ
  z : ℚ
deriving DecidableEq

/-- Generic spatial transform.  The 2d rotation (`Rot`, a cos/sin pair) and the
transform's quaternion are both represented by a single surrogate scalar; the
`Rot → Quaternion` conversion used at `prepare.rs:105-106` lives outside the
embedded source and the spec describes it as an exact mirror ("the generic
spatial transform is overwritten to match"), so the conversion is the
identity on the surrogate. -/
structure Transform where
  translation : Vec3
  rotation : ℚ
deriving DecidableEq

/-- Authored components of a newly created rigid body, as read by the
`RigidBodyComponents` query of `init_rigid_bodies` (`prepare.rs:30-43`); the
two pre-solve snapshot components are not read by the query but may exist on
the entity, so they are carried here to express what happens to them. -/
structure RigidBodyIn where
  transform : Option Transform
  pos : Option Vec2
  rot : Option ℚ
  lin_vel : Option Vec2
  ang_vel : Option ℚ
  force : Option Vec2
  torque : Option ℚ
  restitution : Option ℚ
  friction : Option ℚ
  time_sleeping : Option ℚ
  pre_solve_lin_vel : Option Vec2
  pre_solve_ang_vel : Option ℚ
deriving DecidableEq

/-- Modelled from the spec: the `Default` impls of the force/torque
accumulators, restitution, friction and sleep-timer components live outside
the embedded source and the spec does not pin their numeric values ("each
default independently if absent"), so they are parameters.  Velocities and
pre-solve snapshots default to zero per the spec and are not parameters. -/
structure BodyDefaults where
  force : Vec2
  torque : ℚ
  restitution : ℚ
  friction : ℚ
  time_sleeping : ℚ
deriving DecidableEq

/-- State of a body's kinematic/dynamics components after the defaulting pass
has run and its queued command buffer has been applied. -/
structure BodyState where
  transform : Option Transform
  pos : Vec2
  prev_pos : Vec2
  rot : ℚ
  prev_rot : ℚ
  lin_vel : Vec2
  ang_vel : ℚ
  pre_solve_lin_vel : Vec2
  pre_solve_ang_vel : ℚ
  force : Vec2
  torque : ℚ
  restitution : ℚ
  friction : ℚ
  time_sleeping : ℚ
deriving DecidableEq

/-- Embedding of `init_rigid_bodies` (`prepare.rs:45-138`) for one body.
A queued `insert` overwrites any existing component of the same kind when the
command buffer is applied, so later inserts win.  The position branch mutates
the transform's translation only when an explicit `Pos` was authored
(`pos.extend(0.0)` under the `2d` feature); the rotation branch then reads the
possibly-updated transform, whose rotation the position branch never touches.
`PreSolveLinVel` and `PreSolveAngVel` are inserted unconditionally
(`prepare.rs:117,121`). -/
def init_rigid_bodies (d : BodyDefaults) (c : RigidBodyIn) : BodyState :=
  let posStep : Vec2 × Vec2 × Option Transform :=
    match c.pos, c.transform with
    | some p, some t => (p, p, some { t with translation := ⟨p.x, p.y, 0⟩ })
    | some p, none => (p, p, none)
    | none, some t =>
        (⟨t.translation.x, t.translation.y⟩, ⟨t.translation.x, t.translation.y⟩, some t)
    | none, none => (Vec2.zero, Vec2.zero, none)
  let rotStep : ℚ × ℚ × Option Transform :=
    match c.rot, posStep.2.2 with
    | some r, some t => (r, r, some { t with rotation := r })
    | some r, none => (r, r, none)
    | none, some t => (t.rotation, t.rotation, some t)
    | none, none => (0, 0, none)
  { transform := rotStep.2.2
    pos := posStep.1
    prev_pos := posStep.2.1
    rot := rotStep.1
    prev_rot := rotStep.2.1
    lin_vel := c.lin_vel.getD Vec2.zero
    ang_vel := c.ang_vel.getD 0
    pre_solve_lin_vel := Vec2.zero
    pre_solve_ang_vel := 0
    force := c.force.getD d.force
    torque := c.torque.getD d.torque
    restitution := c.restitution.getD d.restitution
    friction := c.friction.getD d.friction
    time_sleeping := c.time_sleeping.getD d.time_sleeping }

/-- Authored mass components as read by the `MassPropComponents` query of
`init_mass_props` (`prepare.rs:140-148`). -/
structure MassPropsIn where
  mass : Option ℚ
  inv_mass : Option XScalar
  inertia : Option ℚ
  inv_inertia : Option XScalar
  local_com : Option Vec2
deriving DecidableEq

/-- Modelled from the spec: the `Default` impls of the mass components live
outside the embedded source and the spec does not pin their values ("insert a
default mass and a default inverse mass"), so they are parameters. -/
structure MassDefaults where
  mass : ℚ
  inv_mass : XScalar
  inertia : ℚ
  inv_inertia : XScalar
  local_com : Vec2
deriving DecidableEq

/-- Fully populated mass components of a body. -/
structure MassPropsState where
  mass : ℚ
  inv_mass : XScalar
  inertia : ℚ
  inv_inertia : XScalar
  local_com : Vec2
deriving DecidableEq

/-- Embedding of `init_mass_props` (`prepare.rs:150-175`) for one entity.
All `is_none` checks read the query snapshot taken before any insert, and a
later queued insert overwrites an earlier one, hence: if the snapshot lacked
an inverse mass, the final inverse mass is `1.0 / mass` evaluated on the
snapshot's mass (defaulted when also absent); if the snapshot had an inverse
mass but lacked a mass, the unconditional default-inverse-mass insert at
`prepare.rs:159` overwrites the authored value.  `Inertia::inverse` lives
outside the embedded source; modelled from the spec ("equivalent rule for
inertia/inverse-inertia") as the scalar reciprocal of the planar inertia. -/
def init_mass_props (d : MassDefaults) (c : MassPropsIn) : MassPropsState :=
  { mass := c.mass.getD d.mass
    inv_mass :=
      match c.inv_mass, c.mass with
      | none, m => oneDiv (m.getD d.mass)
      | some _, none => d.inv_mass
      | some v, some _ => v
    inertia := c.inertia.getD d.inertia
    inv_inertia :=
      match c.inv_inertia, c.inertia with
      | none, i => oneDiv (i.getD d.inertia)
      | some _, none => d.inv_inertia
      | some v, some _ => v
    local_com := c.local_com.getD d.local_com }

/-- Mass properties record of a collider (`ColliderMassProperties`): mass,
planar inertia contribution, local center of mass, density. -/
structure ColliderMassProperties where
  mass : ℚ
  inertia : ℚ
  local_center_of_mass : Vec2
  density : ℚ
deriving DecidableEq

/-- Modelled from the spec: `ColliderMassProperties::ZERO`, the "zero/neutral
value" stored as the previous-step snapshot of a newly attached collider. -/
def ColliderMassProperties.ZERO : ColliderMassProperties := ⟨0, 0, Vec2.zero, 0⟩

/-- Mass-related components of a collider entity. -/
structure ColliderState where
  shape : Shape
  mass_props : ColliderMassProperties
  prev_mass_props : ColliderMassProperties
deriving DecidableEq

/-- Authored collider components as read by the `ColliderComponents` query of
`init_colliders` (`prepare.rs:177-183`); the shape is mandatory. -/
structure ColliderIn where
  shape : Shape
  mass_props : Option ColliderMassProperties
  prev_mass_props : Option ColliderMassProperties
deriving DecidableEq

/-- Embedding of the mass-related part of `init_colliders`
(`prepare.rs:185-202`): absent mass properties are computed from the shape at
unit density (`from_shape_and_density(shape, 1.0)`), an absent previous-step
snapshot is set to the zero value.  `from_shape_and_density` lives outside the
embedded source and is passed as the parameter `fsd`.  The bounding-box insert
of the same system is embedded separately as `init_collider_aabb` because it
lives on the real-valued side. -/
def init_colliders (fsd : Shape → ℚ → ColliderMassProperties) (c : ColliderIn) :
    ColliderState :=
  { shape := c.shape
    mass_props := c.mass_props.getD (fsd c.shape 1)
    prev_mass_props := c.prev_mass_props.getD ColliderMassProperties.ZERO }

/-- Embedding of the first conditional branch of `update_mass_props`
(`prepare.rs:249-251`): when the body's own mass changed this pass and is at
least epsilon, the inverse mass is recomputed as `1.0 / mass`.  The Bevy
change-detection flag is the boolean `massChanged`. -/
def invMassStep (massChanged : Bool) (b : MassPropsState) : MassPropsState :=
  if massChanged && decide (EPSILON ≤ b.mass) then
    { b with inv_mass := oneDiv b.mass }
  else b

/-- Embedding of the inverse-mass clamp (`prepare.rs:271-273`). -/
def clampInv (b : MassPropsState) : MassPropsState :=
  if XScalar.blt b.inv_mass (XScalar.fin EPSILON) then
    { b with inv_mass := XScalar.fin EPSILON }
  else b

/-- Embedding of the trailing epsilon floor of `update_mass_props`
(`prepare.rs:268-273`): the aggregate mass, then the inverse mass, are raised
to epsilon when strictly below it. -/
def clampEpsilon (b : MassPropsState) : MassPropsState :=
  clampInv (if b.mass < EPSILON then { b with mass := EPSILON } else b)

/-- Modelled from the spec: subtracting a collider contribution from the
body's aggregate mass properties ("subtract the collider's previous
mass-property snapshot from the body's aggregate mass properties"); the
aggregate per the glossary consists of total mass, inertia and
center-of-mass offset.  The `SubAssign` impl lives outside the embedded
source. -/
def massPropsSub (b : MassPropsState) (c : ColliderMassProperties) : MassPropsState :=
  { b with
    mass := b.mass - c.mass
    inertia := b.inertia - c.inertia
    local_com := ⟨b.local_com.x - c.local_center_of_mass.x,
                  b.local_com.y - c.local_center_of_mass.y⟩ }

/-- Modelled from the spec: adding a collider contribution into the body's
aggregate mass properties ("add the fresh value into the body's aggregate").
The `AddAssign` impl lives outside the embedded source. -/
def massPropsAdd (b : MassPropsState) (c : ColliderMassProperties) : MassPropsState :=
  { b with
    mass := b.mass + c.mass
    inertia := b.inertia + c.inertia
    local_com := ⟨b.local_com.x + c.local_center_of_mass.x,
                  b.local_com.y + c.local_center_of_mass.y⟩ }

/-- Embedding of `update_mass_props` (`prepare.rs:247-275`) for one body.
When a collider is attached the code, in order: subtracts the previous
snapshot from the body's aggregate; assigns the previous snapshot from the
collider's *current* (pre-recompute) mass properties; recomputes the current
mass properties from the shape and the configured density; adds the freshly
computed value into the aggregate.  The trailing clamps then apply.
`from_shape_and_density` is the parameter `fsd`. -/
def update_mass_props (fsd : Shape → ℚ → ColliderMassProperties)
    (massChanged : Bool) (b0 : MassPropsState) (col : Option ColliderState) :
    MassPropsState × Option ColliderState :=
  let b1 := invMassStep massChanged b0
  match col with
  | none => (clampEpsilon b1, none)
  | some c =>
      let b2 := massPropsSub b1 c.prev_mass_props
      let fresh := fsd c.shape c.mass_props.density
      let b3 := massPropsAdd b2 fresh
      (clampEpsilon b3, some { c with prev_mass_props := c.mass_props, mass_props := fresh })

/-- Planar vector with real components, for the bounding-volume pass. -/
structure VecR where
  x : ℝ
  y : ℝ

/-- Euclidean length of a planar velocity vector. -/
noncomputable def VecR.length (v : VecR) : ℝ := Real.sqrt (v.x * v.x + v.y * v.y)

/-- Axis-aligned bounding box written by the bounding-volume pass. -/
structure Aabb where
  mins : VecR
  maxs : VecR

/-- Linear speed term `lin_vel.map_or(0.0, |v| v.length())`
(`prepare.rs:216`). -/
noncomputable def lin_vel_len (v : Option VecR) : ℝ := v.elim 0 VecR.length

/-- Angular speed term `ang_vel.map_or(0.0, |v| v.abs())` under the `2d`
feature (`prepare.rs:219`). -/
def ang_vel_len (w : Option ℝ) : ℝ := w.elim 0 (fun a => |a|)

/-- Safety margin of `update_aabb` (`prepare.rs:213,227`): the factor
`2.0 * dt` times the sum of linear speed and angular speed magnitude. -/
noncomputable def safety_margin (dt : ℝ) (lv : Option VecR) (av : Option ℝ) : ℝ :=
  2 * dt * (lin_vel_len lv + ang_vel_len av)

/-- Inputs of one iteration of `update_aabb` (`prepare.rs:208-232`): the
collider's shape and the owning body's pose and optional velocities. -/
structure AabbIn where
  shape : Shape
  pos : VecR
  rot : ℝ
  lin_vel : Option VecR
  ang_vel : Option ℝ

/-- Embedding of one iteration of `update_aabb` (`prepare.rs:208-232`).
`compute_aabb(&make_isometry(pos, rot)).half_extents()` lives outside the
embedded source and is the parameter `che`, a function of the shape and the
pose.  Every half-extent is inflated by the safety margin, and the world
bounds are written as position minus/plus the inflated half-extents. -/
noncomputable def update_aabb (che : Shape → VecR → ℝ → VecR) (dt : ℝ) (c : AabbIn) :
    Aabb :=
  let half_extents := che c.shape c.pos c.rot
  let margin := safety_margin dt c.lin_vel c.ang_vel
  let extended_half_extents : VecR := ⟨half_extents.x + margin, half_extents.y + margin⟩
  { mins := ⟨c.pos.x - extended_half_extents.x, c.pos.y - extended_half_extents.y⟩
    maxs := ⟨c.pos.x + extended_half_extents.x, c.pos.y + extended_half_extents.y⟩ }

/-- Embedding of the bounding-box insert of `init_colliders`
(`prepare.rs:192-194`): an absent box is computed from the shape alone via
`ColliderAabb::from_shape`, which lives outside the embedded source and is the
parameter `from_shape`. -/
def init_collider_aabb (from_shape : Shape → Aabb) (shape : Shape)
    (aabb : Option Aabb) : Aabb :=
  aabb.getD (from_shape shape)

/-! Concrete instances used by witnesses and counterexamples. -/

/-- Concrete shape mass computation used in witnesses: mass and inertia scale
linearly with the shape descriptor and the density. -/
def fsdLin : Shape → ℚ → ColliderMassProperties :=
  fun s d => ⟨s * d, s * d, Vec2.zero, d⟩

/-- Concrete mass defaults (all zero) used in witnesses. -/
def defaultsZero : MassDefaults := ⟨0, XScalar.fin 0, 0, XScalar.fin 0, Vec2.zero⟩

/-- Concrete body defaults (all zero) used in witnesses. -/
def bodyDefaultsZero : BodyDefaults := ⟨Vec2.zero, 0, 0, 0, 0⟩

/-! Helper lemmas about the mass-aggregation step. -/

/-- The inverse-mass recompute branch never changes the aggregate mass. -/
theorem invMassStep_mass (mc : Bool) (b : MassPropsState) :
    (invMassStep mc b).mass = b.mass := by
  unfold invMassStep; split <;> rfl

/-- The inverse-mass clamp never changes the aggregate mass. -/
theorem clampInv_mass (b : MassPropsState) :
    (clampInv b).mass = b.mass := by
  unfold clampInv; split <;> rfl

/-- When the aggregate mass is at least epsilon, the trailing clamp leaves it
unchanged. -/
theorem clampEpsilon_mass_of_le (b : MassPropsState) (h : EPSILON ≤ b.mass) :
    (clampEpsilon b).mass = b.mass := by
  unfold clampEpsilon
  rw [if_neg (not_lt.mpr h), clampInv_mass]

/-- Unfolding of the maintenance pass on a body with an attached collider. -/
theorem update_mass_props_some (fsd : Shape → ℚ → ColliderMassProperties)
    (mc : Bool) (b0 : MassPropsState) (c : ColliderState) :
    update_mass_props fsd mc b0 (some c) =
      (clampEpsilon (massPropsAdd (massPropsSub (invMassStep mc b0) c.prev_mass_props)
          (fsd c.shape c.mass_props.density)),
        some { c with prev_mass_props := c.mass_props,
                      mass_props := fsd c.shape c.mass_props.density }) := rfl

/-- The epsilon floor is strictly positive. -/
theorem epsilon_pos : (0 : ℚ) < EPSILON := by norm_num [EPSILON]

/-- Unfolding of the maintenance pass on a body without a collider. -/
theorem update_mass_props_none (fsd : Shape → ℚ → ColliderMassProperties)
    (mc : Bool) (b0 : MassPropsState) :
    update_mass_props fsd mc b0 none = (clampEpsilon (invMassStep mc b0), none) := rfl

/-- The inverse-mass recompute branch is a no-op when the mass is below
epsilon. -/
theorem invMassStep_of_lt (mc : Bool) (b : MassPropsState) (h : b.mass < EPSILON) :
    invMassStep mc b = b := by
  unfold invMassStep
  have : ¬ (EPSILON ≤ b.mass) := not_le.mpr h
  simp [this]

/-- Effect of the trailing clamp on a body whose mass is below epsilon and
whose inverse mass is positive infinity: the mass is floored, the infinite
inverse mass survives untouched. -/
theorem clampEpsilon_of_pinf (b : MassPropsState) (hb : b.inv_mass = XScalar.pinf)
    (hlt : b.mass < EPSILON) :
    clampEpsilon b = { b with mass := EPSILON } := by
  unfold clampEpsilon clampInv
  rw [if_pos hlt, if_neg]
  simp [hb, XScalar.blt]

/-- Full run of defaulting plus maintenance for a collider-less body with
authored mass zero and no authored inverse mass (shared computation). -/
theorem run_zero_mass (fsd : Shape → ℚ → ColliderMassProperties)
    (d : MassDefaults) (c : MassPropsIn)
    (hm : c.mass = some 0) (hi : c.inv_mass = none) :
    (update_mass_props fsd true (init_mass_props d c) none).1.mass = EPSILON ∧
    (update_mass_props fsd true (init_mass_props d c) none).1.inv_mass = XScalar.pinf := by
  have hmass : (init_mass_props d c).mass = 0 := by
    simp [init_mass_props, hm]
  have hinv : (init_mass_props d c).inv_mass = XScalar.pinf := by
    simp [init_mass_props, hm, hi, oneDiv]
  have hlt : (init_mass_props d c).mass < EPSILON := by rw [hmass]; exact epsilon_pos
  rw [update_mass_props_none, invMassStep_of_lt true _ hlt,
    clampEpsilon_of_pinf _ hinv hlt]
  exact ⟨rfl, hinv⟩

/-! Claim theorems. -/

/-- C1: the claim says that at the end of every maintenance pass touching an
attached collider, the previous-step snapshot equals the freshly computed mass
properties (the value added into the aggregate).  Evaluating the code at a
failing input shows the opposite: the pass assigns the snapshot from the
collider's stale pre-recompute mass properties `⟨1, 1, 0, 1⟩` and only then
recomputes the fresh value `fsdLin 2 1 = ⟨2, 2, 0, 1⟩`, so the snapshot ends
the pass different from the value that was added — the next pass's subtraction
undoes the second-to-last contribution, not the last one. -/
theorem C1_snapshot_stale_at_failing_input :
    (update_mass_props fsdLin false ⟨1, XScalar.fin 1, 1, XScalar.fin 1, Vec2.zero⟩
        (some ⟨2, ⟨1, 1, Vec2.zero, 1⟩, ⟨1, 1, Vec2.zero, 1⟩⟩)).2 =
      some ⟨2, ⟨2, 2, Vec2.zero, 1⟩, ⟨1, 1, Vec2.zero, 1⟩⟩ ∧
    (⟨1, 1, Vec2.zero, 1⟩ : ColliderMassProperties) ≠ fsdLin 2 1 := by
  constructor
  · rw [update_mass_props_some]
    simp [fsdLin]
  · simp [fsdLin, ColliderMassProperties.mk.injEq]

/-- C3 counterexample: a body with authored mass `0` and no authored inverse
mass.  Defaulting inserts `InvMass(1.0 / 0.0) = +inf`; the maintenance pass
clamps the mass to epsilon but leaves the inverse mass at `+inf` (which is not
below epsilon), so the inverse mass is neither `1 / EPSILON` nor finite,
refuting the claim at this concrete input. -/
theorem C3_inv_mass_infinite_counterexample :
    (update_mass_props fsdLin true
        (init_mass_props defaultsZero
          ⟨some 0, none, some 1, some (XScalar.fin 1), some Vec2.zero⟩)
        none).1.inv_mass = XScalar.pinf ∧
    XScalar.pinf ≠ XScalar.fin (1 / EPSILON) ∧
    XScalar.isFinite XScalar.pinf = false := by
  refine ⟨(run_zero_mass fsdLin defaultsZero _ rfl rfl).2, by simp, rfl⟩

/-- C3 amended: for every body with authored mass `0` and no authored inverse
mass, after defaulting and the maintenance-pass clamping, the mass equals the
epsilon floor (that half of the claim holds), but the inverse mass is the IEEE
quotient `1.0 / 0.0 = +inf` — not `1 / EPSILON` and not finite — because the
floor clamp only raises values strictly below epsilon. -/
theorem C3_zero_mass_amended (fsd : Shape → ℚ → ColliderMassProperties)
    (d : MassDefaults) (c : MassPropsIn)
    (hm : c.mass = some 0) (hi : c.inv_mass = none) :
    (update_mass_props fsd true (init_mass_props d c) none).1.mass = EPSILON ∧
    (update_mass_props fsd true (init_mass_props d c) none).1.inv_mass = XScalar.pinf :=
  run_zero_mass fsd d c hm hi

/-- C3 witness: the amended theorem applied at a concrete input. -/
theorem C3_zero_mass_amended_witness :
    (update_mass_props fsdLin true
        (init_mass_props defaultsZero ⟨some 0, none, none, none, none⟩) none).1.mass
      = EPSILON ∧
    (update_mass_props fsdLin true
        (init_mass_props defaultsZero ⟨some 0, none, none, none, none⟩) none).1.inv_mass
      = XScalar.pinf :=
  C3_zero_mass_amended fsdLin defaultsZero ⟨some 0, none, none, none, none⟩ rfl rfl

/-- Neither branch of the maintenance pass touches the inverse inertia. -/
theorem invMassStep_inv_inertia (mc : Bool) (b : MassPropsState) :
    (invMassStep mc b).inv_inertia = b.inv_inertia := by
  unfold invMassStep; split <;> rfl

/-- The trailing clamp never touches the inverse inertia. -/
theorem clampEpsilon_inv_inertia (b : MassPropsState) :
    (clampEpsilon b).inv_inertia = b.inv_inertia := by
  unfold clampEpsilon clampInv
  split <;> split <;> rfl

/-- The inverse-mass clamp keeps the mass and leaves the inverse mass either
at positive infinity or at a finite value at least epsilon. -/
theorem clampInv_post (b : MassPropsState) :
    (clampInv b).mass = b.mass ∧
    ((clampInv b).inv_mass = XScalar.pinf ∨
      ∃ q : ℚ, (clampInv b).inv_mass = XScalar.fin q ∧ EPSILON ≤ q) := by
  unfold clampInv
  by_cases h : XScalar.blt b.inv_mass (XScalar.fin EPSILON) = true
  · rw [if_pos h]
    exact ⟨rfl, Or.inr ⟨EPSILON, rfl, le_refl _⟩⟩
  · rw [if_neg h]
    refine ⟨rfl, ?_⟩
    rcases hv : b.inv_mass with q | _ | _
    · rw [hv] at h
      simp [XScalar.blt] at h
      exact Or.inr ⟨q, rfl, h⟩
    · exact Or.inl rfl
    · rw [hv] at h
      simp [XScalar.blt] at h

/-- What the trailing clamp does guarantee: the aggregate mass ends at least
epsilon, and the inverse mass ends either at positive infinity or at a finite
value at least epsilon. -/
theorem clampEpsilon_post (b : MassPropsState) :
    EPSILON ≤ (clampEpsilon b).mass ∧
    ((clampEpsilon b).inv_mass = XScalar.pinf ∨
      ∃ q : ℚ, (clampEpsilon b).inv_mass = XScalar.fin q ∧ EPSILON ≤ q) := by
  unfold clampEpsilon
  have hm : EPSILON ≤ (if b.mass < EPSILON then { b with mass := EPSILON } else b).mass := by
    by_cases h : b.mass < EPSILON
    · rw [if_pos h]
    · rw [if_neg h]
      exact le_of_not_lt h
  obtain ⟨h1, h2⟩ := clampInv_post (if b.mass < EPSILON then { b with mass := EPSILON } else b)
  refine ⟨?_, h2⟩
  rw [h1]
  exact hm

/-- C9 counterexample: a body with authored inertia `0` and no authored
inverse inertia.  Defaulting computes the inverse inertia as the IEEE
reciprocal `1.0 / 0.0 = +inf`, and the maintenance pass never clamps the
inverse inertia at all, so the body carries a non-finite inverse inertia
after the pass, refuting the finiteness part of the claim at this concrete
input. -/
theorem C9_inv_inertia_infinite_counterexample :
    (update_mass_props fsdLin true
        (init_mass_props defaultsZero
          ⟨some 1, some (XScalar.fin 1), some 0, none, some Vec2.zero⟩)
        none).1.inv_inertia = XScalar.pinf ∧
    XScalar.isFinite XScalar.pinf = false := by
  have h0 : (init_mass_props defaultsZero
      ⟨some 1, some (XScalar.fin 1), some 0, none, some Vec2.zero⟩).inv_inertia
      = XScalar.pinf := by
    simp [init_mass_props, oneDiv]
  refine ⟨?_, rfl⟩
  rw [update_mass_props_none]
  show (clampEpsilon (invMassStep true _)).inv_inertia = XScalar.pinf
  rw [clampEpsilon_inv_inertia, invMassStep_inv_inertia, h0]

/-- C9 amended: degenerate numeric inputs are indeed never rejected — every
pass is a total function — and the maintenance pass floor-clamps the aggregate
mass to at least epsilon and the inverse mass to either a finite value at
least epsilon or positive infinity.  Finiteness, however, is not guaranteed:
the clamp only raises values strictly below epsilon, so an infinite inverse
mass survives (see the C3 counterexample), and the inverse inertia is not
clamped by the pass at all (see the C9 counterexample). -/
theorem C9_clamp_floor_amended (fsd : Shape → ℚ → ColliderMassProperties)
    (mc : Bool) (b : MassPropsState) (col : Option ColliderState) :
    EPSILON ≤ (update_mass_props fsd mc b col).1.mass ∧
    ((update_mass_props fsd mc b col).1.inv_mass = XScalar.pinf ∨
      ∃ q : ℚ, (update_mass_props fsd mc b col).1.inv_mass = XScalar.fin q ∧
        EPSILON ≤ q) := by
  cases col with
  | none => rw [update_mass_props_none]; exact clampEpsilon_post _
  | some c => rw [update_mass_props_some]; exact clampEpsilon_post _

/-- C6: mass and inverse mass are defaulted from the same initial snapshot:
an absent mass becomes the default mass; an absent inverse mass becomes the
reciprocal of the snapshot's mass — the authored mass when present, otherwise
the just-chosen default mass — so when both are absent simultaneously the
final inverse mass is `1 / (default mass)` (the later queued insert of the
reciprocal overwrites the earlier default-inverse-mass insert). -/
theorem C6_dual_default_same_snapshot (d : MassDefaults) (c : MassPropsIn) :
    (c.mass = none → (init_mass_props d c).mass = d.mass) ∧
    (∀ m : ℚ, c.mass = some m → c.inv_mass = none →
      (init_mass_props d c).inv_mass = oneDiv m) ∧
    (c.mass = none → c.inv_mass = none →
      (init_mass_props d c).inv_mass = oneDiv d.mass) := by
  refine ⟨?_, ?_, ?_⟩
  · intro h; simp [init_mass_props, h]
  · intro m hm hi; simp [init_mass_props, hm, hi]
  · intro hm hi; simp [init_mass_props, hm, hi]

/-- C6 witness: with default mass `3` and both mass and inverse mass absent,
the final mass is `3` and the final inverse mass is `1 / 3`. -/
theorem C6_dual_default_same_snapshot_witness :
    (init_mass_props ⟨3, XScalar.fin 5, 2, XScalar.fin 7, Vec2.zero⟩
      ⟨none, none, none, none, none⟩).mass = (3 : ℚ) ∧
    (init_mass_props ⟨3, XScalar.fin 5, 2, XScalar.fin 7, Vec2.zero⟩
      ⟨none, none, none, none, none⟩).inv_mass = oneDiv 3 :=
  ⟨(C6_dual_default_same_snapshot ⟨3, XScalar.fin 5, 2, XScalar.fin 7, Vec2.zero⟩
      ⟨none, none, none, none, none⟩).1 rfl,
   (C6_dual_default_same_snapshot ⟨3, XScalar.fin 5, 2, XScalar.fin 7, Vec2.zero⟩
      ⟨none, none, none, none, none⟩).2.2 rfl rfl⟩

/-- C5 counterexample: a newly created body that authored explicit pre-solve
velocity snapshots `(1, 2)` and `3`.  Body defaulting inserts the zero
defaults unconditionally (`prepare.rs:117,121`), so both authored snapshot
values are replaced — the insertions are not all no-clobber. -/
theorem C5_pre_solve_clobber_counterexample :
    (init_rigid_bodies bodyDefaultsZero
      ⟨none, none, none, none, none, none, none, none, none, none,
        some ⟨1, 2⟩, some 3⟩).pre_solve_lin_vel = Vec2.zero ∧
    (init_rigid_bodies bodyDefaultsZero
      ⟨none, none, none, none, none, none, none, none, none, none,
        some ⟨1, 2⟩, some 3⟩).pre_solve_ang_vel = 0 ∧
    (⟨1, 2⟩ : Vec2) ≠ Vec2.zero ∧ (3 : ℚ) ≠ 0 := by
  refine ⟨rfl, rfl, ?_, by norm_num⟩
  simp only [Vec2.zero, ne_eq, Vec2.mk.injEq, not_and]
  intro h
  norm_num at h

/-- C5 amended: every insertion of body defaulting is no-clobber — an
authored linear or angular velocity, force or torque accumulator,
restitution, friction or sleep timer keeps its authored value — except the
two pre-solve velocity snapshots, which are unconditionally reset to zero,
replacing any authored value. -/
theorem C5_no_clobber_except_pre_solve (d : BodyDefaults) (c : RigidBodyIn) :
    (init_rigid_bodies d c).lin_vel = c.lin_vel.getD Vec2.zero ∧
    (init_rigid_bodies d c).ang_vel = c.ang_vel.getD 0 ∧
    (init_rigid_bodies d c).force = c.force.getD d.force ∧
    (init_rigid_bodies d c).torque = c.torque.getD d.torque ∧
    (init_rigid_bodies d c).restitution = c.restitution.getD d.restitution ∧
    (init_rigid_bodies d c).friction = c.friction.getD d.friction ∧
    (init_rigid_bodies d c).time_sleeping = c.time_sleeping.getD d.time_sleeping ∧
    (init_rigid_bodies d c).pre_solve_lin_vel = Vec2.zero ∧
    (init_rigid_bodies d c).pre_solve_ang_vel = 0 :=
  ⟨rfl, rfl, rfl, rfl, rfl, rfl, rfl, rfl, rfl⟩

/-- C8: precedence between authored physical pose and the generic transform.
If an explicit position (resp. rotation) is authored, it is kept, the
previous-step snapshot is seeded equal to it, and a present transform's
translation (resp. rotation) is overwritten to mirror it; if it is not
authored and a transform is present, the position (resp. rotation) and its
previous-step snapshot are derived from the transform, whose translation
(resp. rotation) is left untouched. -/
theorem C8_pose_precedence (d : BodyDefaults) (c : RigidBodyIn) :
    (∀ P : Vec2, c.pos = some P →
      (init_rigid_bodies d c).pos = P ∧
      (init_rigid_bodies d c).prev_pos = P ∧
      ∀ t : Transform, c.transform = some t →
        ((init_rigid_bodies d c).transform.map Transform.translation)
          = some ⟨P.x, P.y, 0⟩) ∧
    (∀ R : ℚ, c.rot = some R →
      (init_rigid_bodies d c).rot = R ∧
      (init_rigid_bodies d c).prev_rot = R ∧
      ∀ t : Transform, c.transform = some t →
        ((init_rigid_bodies d c).transform.map Transform.rotation) = some R) ∧
    (c.pos = none → ∀ t : Transform, c.transform = some t →
      (init_rigid_bodies d c).pos = ⟨t.translation.x, t.translation.y⟩ ∧
      (init_rigid_bodies d c).prev_pos = ⟨t.translation.x, t.translation.y⟩ ∧
      ((init_rigid_bodies d c).transform.map Transform.translation)
        = some t.translation) ∧
    (c.rot = none → ∀ t : Transform, c.transform = some t →
      (init_rigid_bodies d c).rot = t.rotation ∧
      (init_rigid_bodies d c).prev_rot = t.rotation ∧
      ((init_rigid_bodies d c).transform.map Transform.rotation)
        = some t.rotation) := by
  rcases hp : c.pos with _ | P0 <;> rcases hr : c.rot with _ | R0 <;>
    rcases ht : c.transform with _ | t0 <;>
      simp [init_rigid_bodies, hp, hr, ht]

/-- Concrete body with authored position, rotation and a transform, for the
C8 witness. -/
def bodyInAuthored : RigidBodyIn :=
  ⟨some ⟨⟨9, 9, 9⟩, 7⟩, some ⟨1, 2⟩, some 5, none, none, none, none, none, none,
    none, none, none⟩

/-- Concrete body with no authored pose but a transform, for the C8
witness. -/
def bodyInDerived : RigidBodyIn :=
  ⟨some ⟨⟨4, 6, 0⟩, 9⟩, none, none, none, none, none, none, none, none,
    none, none, none⟩

/-- C8 witness: the precedence theorem applied to a body with authored pose
`(1, 2)` / `5` plus a transform, and to a body with only a transform
`(4, 6, 0)` / `9`. -/
theorem C8_pose_precedence_witness :
    (init_rigid_bodies bodyDefaultsZero bodyInAuthored).pos = ⟨1, 2⟩ ∧
    (init_rigid_bodies bodyDefaultsZero bodyInAuthored).prev_pos = ⟨1, 2⟩ ∧
    ((init_rigid_bodies bodyDefaultsZero bodyInAuthored).transform.map
      Transform.translation) = some ⟨1, 2, 0⟩ ∧
    (init_rigid_bodies bodyDefaultsZero bodyInAuthored).rot = 5 ∧
    (init_rigid_bodies bodyDefaultsZero bodyInAuthored).prev_rot = 5 ∧
    ((init_rigid_bodies bodyDefaultsZero bodyInAuthored).transform.map
      Transform.rotation) = some 5 ∧
    (init_rigid_bodies bodyDefaultsZero bodyInDerived).pos = ⟨4, 6⟩ ∧
    (init_rigid_bodies bodyDefaultsZero bodyInDerived).prev_pos = ⟨4, 6⟩ ∧
    ((init_rigid_bodies bodyDefaultsZero bodyInDerived).transform.map
      Transform.translation) = some ⟨4, 6, 0⟩ ∧
    (init_rigid_bodies bodyDefaultsZero bodyInDerived).rot = 9 ∧
    (init_rigid_bodies bodyDefaultsZero bodyInDerived).prev_rot = 9 ∧
    ((init_rigid_bodies bodyDefaultsZero bodyInDerived).transform.map
      Transform.rotation) = some 9 :=
  ⟨((C8_pose_precedence bodyDefaultsZero bodyInAuthored).1 ⟨1, 2⟩ rfl).1,
   ((C8_pose_precedence bodyDefaultsZero bodyInAuthored).1 ⟨1, 2⟩ rfl).2.1,
   ((C8_pose_precedence bodyDefaultsZero bodyInAuthored).1 ⟨1, 2⟩ rfl).2.2
     ⟨⟨9, 9, 9⟩, 7⟩ rfl,
   ((C8_pose_precedence bodyDefaultsZero bodyInAuthored).2.1 5 rfl).1,
   ((C8_pose_precedence bodyDefaultsZero bodyInAuthored).2.1 5 rfl).2.1,
   ((C8_pose_precedence bodyDefaultsZero bodyInAuthored).2.1 5 rfl).2.2
     ⟨⟨9, 9, 9⟩, 7⟩ rfl,
   ((C8_pose_precedence bodyDefaultsZero bodyInDerived).2.2.1 rfl
     ⟨⟨4, 6, 0⟩, 9⟩ rfl).1,
   ((C8_pose_precedence bodyDefaultsZero bodyInDerived).2.2.1 rfl
     ⟨⟨4, 6, 0⟩, 9⟩ rfl).2.1,
   ((C8_pose_precedence bodyDefaultsZero bodyInDerived).2.2.1 rfl
     ⟨⟨4, 6, 0⟩, 9⟩ rfl).2.2,
   ((C8_pose_precedence bodyDefaultsZero bodyInDerived).2.2.2 rfl
     ⟨⟨4, 6, 0⟩, 9⟩ rfl).1,
   ((C8_pose_precedence bodyDefaultsZero bodyInDerived).2.2.2 rfl
     ⟨⟨4, 6, 0⟩, 9⟩ rfl).2.1,
   ((C8_pose_precedence bodyDefaultsZero bodyInDerived).2.2.2 rfl
     ⟨⟨4, 6, 0⟩, 9⟩ rfl).2.2⟩

/-- Subtracting a collider contribution lowers the aggregate mass by the
contribution's mass. -/
theorem massPropsSub_mass (b : MassPropsState) (c : ColliderMassProperties) :
    (massPropsSub b c).mass = b.mass - c.mass := rfl

/-- Adding a collider contribution raises the aggregate mass by the
contribution's mass. -/
theorem massPropsAdd_mass (b : MassPropsState) (c : ColliderMassProperties) :
    (massPropsAdd b c).mass = b.mass + c.mass := rfl

/-- C2: delta-based aggregation.  First part: for a body with one attached
collider in steady state at contribution `m1` (previous snapshot and current
mass properties both carry mass `m1`, and the shape still computes `m1` at the
first step), whose shape then changes so that the second step computes `m2`,
the aggregate mass after the second maintenance step equals the aggregate
before the first step minus `m1` plus `m2` — obtained by subtracting the
snapshot and adding the fresh value, never by a full re-sum.  The epsilon
hypotheses say the intermediate aggregates stay above the clamp floor, as the
claim's scenario presumes.  Second part: for a collider freshly initialized
with no authored previous snapshot, the zero snapshot makes the first
aggregation add the full freshly computed contribution to the body's
aggregate without subtracting anything. -/
theorem C2_delta_aggregation :
    (∀ (fsd : Shape → ℚ → ColliderMassProperties) (mc1 mc2 : Bool)
        (b0 : MassPropsState) (c0 : ColliderState) (s2 : Shape) (m1 m2 : ℚ),
      c0.prev_mass_props.mass = m1 →
      c0.mass_props.mass = m1 →
      (fsd c0.shape c0.mass_props.density).mass = m1 →
      (fsd s2 (fsd c0.shape c0.mass_props.density).density).mass = m2 →
      EPSILON ≤ b0.mass →
      EPSILON ≤ b0.mass - m1 + m2 →
      (update_mass_props fsd mc2
          (update_mass_props fsd mc1 b0 (some c0)).1
          ((update_mass_props fsd mc1 b0 (some c0)).2.map
            (fun c => { c with shape := s2 }))).1.mass
        = b0.mass - m1 + m2) ∧
    (∀ (fsd : Shape → ℚ → ColliderMassProperties) (mc : Bool)
        (b0 : MassPropsState) (cin : ColliderIn),
      cin.prev_mass_props = none →
      EPSILON ≤ b0.mass
        + (fsd cin.shape (init_colliders fsd cin).mass_props.density).mass →
      (update_mass_props fsd mc b0 (some (init_colliders fsd cin))).1.mass
        = b0.mass
          + (fsd cin.shape (init_colliders fsd cin).mass_props.density).mass) := by
  constructor
  · intro fsd mc1 mc2 b0 c0 s2 m1 m2 h1 h2 h3 h4 h5 h6
    have hinner1 : (massPropsAdd (massPropsSub (invMassStep mc1 b0) c0.prev_mass_props)
        (fsd c0.shape c0.mass_props.density)).mass = b0.mass := by
      rw [massPropsAdd_mass, massPropsSub_mass, invMassStep_mass, h1, h3]
      ring
    have hfst : (update_mass_props fsd mc1 b0 (some c0)).1.mass = b0.mass := by
      rw [update_mass_props_some]
      show (clampEpsilon (massPropsAdd (massPropsSub (invMassStep mc1 b0)
        c0.prev_mass_props) (fsd c0.shape c0.mass_props.density))).mass = b0.mass
      rw [clampEpsilon_mass_of_le _ (by rw [hinner1]; exact h5)]
      exact hinner1
    have hsnd : (update_mass_props fsd mc1 b0 (some c0)).2 =
        some { c0 with prev_mass_props := c0.mass_props,
                       mass_props := fsd c0.shape c0.mass_props.density } := by
      rw [update_mass_props_some]
    rw [hsnd, Option.map_some']
    rw [update_mass_props_some]
    show (clampEpsilon (massPropsAdd (massPropsSub
        (invMassStep mc2 (update_mass_props fsd mc1 b0 (some c0)).1) c0.mass_props)
        (fsd s2 (fsd c0.shape c0.mass_props.density).density))).mass
      = b0.mass - m1 + m2
    have hinner2 : (massPropsAdd (massPropsSub
        (invMassStep mc2 (update_mass_props fsd mc1 b0 (some c0)).1) c0.mass_props)
        (fsd s2 (fsd c0.shape c0.mass_props.density).density)).mass
        = b0.mass - m1 + m2 := by
      rw [massPropsAdd_mass, massPropsSub_mass, invMassStep_mass, hfst, h2, h4]
    rw [clampEpsilon_mass_of_le _ (by rw [hinner2]; exact h6)]
    exact hinner2
  · intro fsd mc b0 cin hprev heps
    have hcolprev : (init_colliders fsd cin).prev_mass_props = ColliderMassProperties.ZERO := by
      simp [init_colliders, hprev]
    have hinner : (massPropsAdd (massPropsSub (invMassStep mc b0)
        (init_colliders fsd cin).prev_mass_props)
        (fsd (init_colliders fsd cin).shape
          (init_colliders fsd cin).mass_props.density)).mass
        = b0.mass + (fsd cin.shape (init_colliders fsd cin).mass_props.density).mass := by
      rw [massPropsAdd_mass, massPropsSub_mass, invMassStep_mass, hcolprev]
      show b0.mass - ColliderMassProperties.ZERO.mass
          + (fsd cin.shape (init_colliders fsd cin).mass_props.density).mass = _
      rw [show ColliderMassProperties.ZERO.mass = 0 from rfl]
      ring
    rw [update_mass_props_some]
    show (clampEpsilon (massPropsAdd (massPropsSub (invMassStep mc b0)
        (init_colliders fsd cin).prev_mass_props)
        (fsd (init_colliders fsd cin).shape
          (init_colliders fsd cin).mass_props.density))).mass = _
    rw [clampEpsilon_mass_of_le _ (by rw [hinner]; exact heps)]
    exact hinner

/-- Concrete body aggregate for the C2 witness. -/
def bodyW : MassPropsState := ⟨5, XScalar.fin 1, 1, XScalar.fin 1, Vec2.zero⟩

/-- Concrete steady-state collider (contribution mass 1) for the C2
witness. -/
def colliderW : ColliderState := ⟨1, ⟨1, 1, Vec2.zero, 1⟩, ⟨1, 1, Vec2.zero, 1⟩⟩

/-- Concrete freshly attached collider input for the C2 witness. -/
def colliderInW : ColliderIn := ⟨1, some ⟨1, 1, Vec2.zero, 1⟩, none⟩

/-- C2 witness: the delta theorem applied to a body of mass 5 whose collider
contribution changes from 1 to 2 (aggregate ends at 5 − 1 + 2), and the
fresh-attach part applied to a newly initialized collider. -/
theorem C2_delta_aggregation_witness :
    (update_mass_props fsdLin false
        (update_mass_props fsdLin false bodyW (some colliderW)).1
        ((update_mass_props fsdLin false bodyW (some colliderW)).2.map
          (fun c => { c with shape := 2 }))).1.mass = bodyW.mass - 1 + 2 ∧
    (update_mass_props fsdLin false bodyW (some (init_colliders fsdLin colliderInW))).1.mass
      = bodyW.mass
        + (fsdLin colliderInW.shape
            (init_colliders fsdLin colliderInW).mass_props.density).mass :=
  ⟨C2_delta_aggregation.1 fsdLin false false bodyW colliderW 2 1 2 rfl rfl
      (by norm_num [fsdLin, colliderW]) (by norm_num [fsdLin, colliderW])
      (by norm_num [bodyW, EPSILON]) (by norm_num [bodyW, EPSILON]),
   C2_delta_aggregation.2 fsdLin false bodyW colliderInW rfl
      (by norm_num [bodyW, colliderInW, init_colliders, fsdLin, EPSILON])⟩

/-- The Euclidean length of a velocity vector is nonnegative. -/
theorem VecR.length_nonneg (v : VecR) : 0 ≤ v.length := Real.sqrt_nonneg _

/-- The zero velocity vector has length zero. -/
theorem VecR.length_zero : VecR.length ⟨0, 0⟩ = 0 := by
  unfold VecR.length
  rw [show (0 : ℝ) * 0 + 0 * 0 = 0 by norm_num, Real.sqrt_zero]

/-- A purely horizontal velocity of magnitude 10 has length 10. -/
theorem VecR.length_ten : VecR.length ⟨10, 0⟩ = 10 := by
  unfold VecR.length
  rw [show (10 : ℝ) * 10 + 0 * 0 = 10 ^ 2 by norm_num]
  exact Real.sqrt_sq (by norm_num)

/-- The linear speed term is nonnegative. -/
theorem lin_vel_len_nonneg (lv : Option VecR) : 0 ≤ lin_vel_len lv := by
  cases lv with
  | none => exact le_refl 0
  | some v => exact VecR.length_nonneg v

/-- The angular speed term is nonnegative. -/
theorem ang_vel_len_nonneg (av : Option ℝ) : 0 ≤ ang_vel_len av := by
  cases av with
  | none => exact le_refl 0
  | some a => exact abs_nonneg a

/-- C4: the written bounds of bounding-volume maintenance are the position
minus/plus the half-extents inflated, uniformly on every axis, by the safety
margin `2 × dt × (linear speed + scalar angular speed magnitude)`; and in the
spec's scenario — step duration `1/100`, linear velocity `(10, 0)` (speed 10),
angular speed `0` — the margin is exactly `1/5 = 0.2` units. -/
theorem C4_margin_formula_and_scenario :
    (∀ (che : Shape → VecR → ℝ → VecR) (dt : ℝ) (c : AabbIn),
      (update_aabb che dt c).mins.x
        = c.pos.x - ((che c.shape c.pos c.rot).x
            + 2 * dt * (lin_vel_len c.lin_vel + ang_vel_len c.ang_vel)) ∧
      (update_aabb che dt c).mins.y
        = c.pos.y - ((che c.shape c.pos c.rot).y
            + 2 * dt * (lin_vel_len c.lin_vel + ang_vel_len c.ang_vel)) ∧
      (update_aabb che dt c).maxs.x
        = c.pos.x + ((che c.shape c.pos c.rot).x
            + 2 * dt * (lin_vel_len c.lin_vel + ang_vel_len c.ang_vel)) ∧
      (update_aabb che dt c).maxs.y
        = c.pos.y + ((che c.shape c.pos c.rot).y
            + 2 * dt * (lin_vel_len c.lin_vel + ang_vel_len c.ang_vel))) ∧
    safety_margin (1 / 100) (some ⟨10, 0⟩) (some 0) = 1 / 5 := by
  constructor
  · intro che dt c
    exact ⟨rfl, rfl, rfl, rfl⟩
  · show 2 * (1 / 100 : ℝ) * (VecR.length ⟨10, 0⟩ + |(0 : ℝ)|) = 1 / 5
    rw [VecR.length_ten, abs_zero]
    norm_num

/-- C7: for a fixed step duration the safety margin is nonnegative and
non-decreasing in the combined linear-plus-angular speed, and at zero linear
and angular velocity the margin is exactly zero and the written bounds
degrade to the shape's bare extents, position minus/plus the uninflated
half-extents. -/
theorem C7_margin_monotone_and_zero :
    (∀ (dt : ℝ) (lv : Option VecR) (av : Option ℝ), 0 ≤ dt →
      0 ≤ safety_margin dt lv av) ∧
    (∀ (dt : ℝ) (lv1 lv2 : Option VecR) (av1 av2 : Option ℝ), 0 ≤ dt →
      lin_vel_len lv1 + ang_vel_len av1 ≤ lin_vel_len lv2 + ang_vel_len av2 →
      safety_margin dt lv1 av1 ≤ safety_margin dt lv2 av2) ∧
    (∀ (che : Shape → VecR → ℝ → VecR) (dt : ℝ) (c : AabbIn),
      c.lin_vel = some ⟨0, 0⟩ → c.ang_vel = some 0 →
      safety_margin dt c.lin_vel c.ang_vel = 0 ∧
      (update_aabb che dt c).mins.x = c.pos.x - (che c.shape c.pos c.rot).x ∧
      (update_aabb che dt c).mins.y = c.pos.y - (che c.shape c.pos c.rot).y ∧
      (update_aabb che dt c).maxs.x = c.pos.x + (che c.shape c.pos c.rot).x ∧
      (update_aabb che dt c).maxs.y = c.pos.y + (che c.shape c.pos c.rot).y) := by
  refine ⟨?_, ?_, ?_⟩
  · intro dt lv av hdt
    unfold safety_margin
    have h1 : 0 ≤ lin_vel_len lv + ang_vel_len av :=
      add_nonneg (lin_vel_len_nonneg lv) (ang_vel_len_nonneg av)
    have h2 : 0 ≤ 2 * dt := by linarith
    exact mul_nonneg h2 h1
  · intro dt lv1 lv2 av1 av2 hdt hle
    unfold safety_margin
    have h2 : 0 ≤ 2 * dt := by linarith
    exact mul_le_mul_of_nonneg_left hle h2
  · intro che dt c hl ha
    have hm : safety_margin dt c.lin_vel c.ang_vel = 0 := by
      rw [hl, ha]
      show 2 * dt * (VecR.length ⟨0, 0⟩ + |(0 : ℝ)|) = 0
      rw [VecR.length_zero, abs_zero]
      ring
    refine ⟨hm, ?_, ?_, ?_, ?_⟩
    · show c.pos.x - ((che c.shape c.pos c.rot).x
          + safety_margin dt c.lin_vel c.ang_vel) = _
      rw [hm]; ring
    · show c.pos.y - ((che c.shape c.pos c.rot).y
          + safety_margin dt c.lin_vel c.ang_vel) = _
      rw [hm]; ring
    · show c.pos.x + ((che c.shape c.pos c.rot).x
          + safety_margin dt c.lin_vel c.ang_vel) = _
      rw [hm]; ring
    · show c.pos.y + ((che c.shape c.pos c.rot).y
          + safety_margin dt c.lin_vel c.ang_vel) = _
      rw [hm]; ring

/-- Concrete half-extents function for the bounding-volume witnesses. -/
def cheW : Shape → VecR → ℝ → VecR := fun _ _ _ => ⟨1, 2⟩

/-- Concrete collider input at rest (explicit zero velocities) for the C7
witness. -/
def aabbInZeroVel : AabbIn := ⟨0, ⟨3, 4⟩, 0, some ⟨0, 0⟩, some 0⟩

/-- C7 witness: the margin theorem applied at step duration 1, with an
explicitly resting collider at position `(3, 4)` and half-extents `(1, 2)`. -/
theorem C7_margin_monotone_and_zero_witness :
    0 ≤ safety_margin 1 none none ∧
    safety_margin 1 none none ≤ safety_margin 1 none (some 1) ∧
    safety_margin 1 aabbInZeroVel.lin_vel aabbInZeroVel.ang_vel = 0 ∧
    (update_aabb cheW 1 aabbInZeroVel).mins.x
      = aabbInZeroVel.pos.x - (cheW aabbInZeroVel.shape aabbInZeroVel.pos aabbInZeroVel.rot).x ∧
    (update_aabb cheW 1 aabbInZeroVel).maxs.y
      = aabbInZeroVel.pos.y + (cheW aabbInZeroVel.shape aabbInZeroVel.pos aabbInZeroVel.rot).y :=
  ⟨C7_margin_monotone_and_zero.1 1 none none (by norm_num),
   C7_margin_monotone_and_zero.2.1 1 none none none (some 1) (by norm_num)
     (by
       show lin_vel_len none + ang_vel_len none
         ≤ lin_vel_len none + ang_vel_len (some 1)
       show (0 : ℝ) + 0 ≤ 0 + |(1 : ℝ)|
       norm_num),
   (C7_margin_monotone_and_zero.2.2 cheW 1 aabbInZeroVel rfl rfl).1,
   (C7_margin_monotone_and_zero.2.2 cheW 1 aabbInZeroVel rfl rfl).2.1,
   (C7_margin_monotone_and_zero.2.2 cheW 1 aabbInZeroVel rfl rfl).2.2.2.2⟩

/-- C10: a missing linear-velocity or angular-velocity component contributes
exactly zero speed to the safety margin — the margin with an absent component
equals the margin with that component explicitly zero — and with both
components absent the margin is zero and the written bounds are the position
minus/plus the uninflated half-extents. -/
theorem C10_missing_velocity_contributes_zero :
    (∀ (dt : ℝ) (av : Option ℝ),
      safety_margin dt none av = safety_margin dt (some ⟨0, 0⟩) av) ∧
    (∀ (dt : ℝ) (lv : Option VecR),
      safety_margin dt lv none = safety_margin dt lv (some 0)) ∧
    (∀ dt : ℝ, safety_margin dt none none = 0) ∧
    (∀ (che : Shape → VecR → ℝ → VecR) (dt : ℝ) (c : AabbIn),
      c.lin_vel = none → c.ang_vel = none →
      (update_aabb che dt c).mins.x = c.pos.x - (che c.shape c.pos c.rot).x ∧
      (update_aabb che dt c).mins.y = c.pos.y - (che c.shape c.pos c.rot).y ∧
      (update_aabb che dt c).maxs.x = c.pos.x + (che c.shape c.pos c.rot).x ∧
      (update_aabb che dt c).maxs.y = c.pos.y + (che c.shape c.pos c.rot).y) := by
  have hznone : ∀ dt : ℝ, safety_margin dt none none = 0 := by
    intro dt
    show 2 * dt * ((0 : ℝ) + 0) = 0
    ring
  refine ⟨?_, ?_, hznone, ?_⟩
  · intro dt av
    unfold safety_margin
    show 2 * dt * ((0 : ℝ) + ang_vel_len av) = 2 * dt * (VecR.length ⟨0, 0⟩ + ang_vel_len av)
    rw [VecR.length_zero]
  · intro dt lv
    unfold safety_margin
    show 2 * dt * (lin_vel_len lv + (0 : ℝ)) = 2 * dt * (lin_vel_len lv + |(0 : ℝ)|)
    rw [abs_zero]
  · intro che dt c hl ha
    have hm : safety_margin dt c.lin_vel c.ang_vel = 0 := by
      rw [hl, ha]
      exact hznone dt
    refine ⟨?_, ?_, ?_, ?_⟩
    · show c.pos.x - ((che c.shape c.pos c.rot).x
          + safety_margin dt c.lin_vel c.ang_vel) = _
      rw [hm]; ring
    · show c.pos.y - ((che c.shape c.pos c.rot).y
          + safety_margin dt c.lin_vel c.ang_vel) = _
      rw [hm]; ring
    · show c.pos.x + ((che c.shape c.pos c.rot).x
          + safety_margin dt c.lin_vel c.ang_vel) = _
      rw [hm]; ring
    · show c.pos.y + ((che c.shape c.pos c.rot).y
          + safety_margin dt c.lin_vel c.ang_vel) = _
      rw [hm]; ring

/-- Concrete collider input lacking both velocity components for the C10
witness. -/
def aabbInNoVel : AabbIn := ⟨0, ⟨3, 4⟩, 0, none, none⟩

/-- C10 witness: the missing-velocity theorem applied at step duration 1 to a
collider at position `(3, 4)` with half-extents `(1, 2)` and no velocity
components. -/
theorem C10_missing_velocity_contributes_zero_witness :
    safety_margin 1 none (some 2) = safety_margin 1 (some ⟨0, 0⟩) (some 2) ∧
    safety_margin 1 (some ⟨10, 0⟩) none = safety_margin 1 (some ⟨10, 0⟩) (some 0) ∧
    safety_margin 1 none none = 0 ∧
    (update_aabb cheW 1 aabbInNoVel).mins.x
      = aabbInNoVel.pos.x - (cheW aabbInNoVel.shape aabbInNoVel.pos aabbInNoVel.rot).x ∧
    (update_aabb cheW 1 aabbInNoVel).maxs.y
      = aabbInNoVel.pos.y + (cheW aabbInNoVel.shape aabbInNoVel.pos aabbInNoVel.rot).y :=
  ⟨C10_missing_velocity_contributes_zero.1 1 (some 2),
   C10_missing_velocity_contributes_zero.2.1 1 (some ⟨10, 0⟩),
   C10_missing_velocity_contributes_zero.2.2.1 1,
   (C10_missing_velocity_contributes_zero.2.2.2 cheW 1 aabbInNoVel rfl rfl).1,
   (C10_missing_velocity_contributes_zero.2.2.2 cheW 1 aabbInNoVel rfl rfl).2.2.2⟩

end Prepare
